import Mathlib

/-!
Shallow embedding of the react-sceneview Layer lifecycle component
(`src/scene/layer/index.jsx`) and of the DrawingTool teardown
(`src/tools/drawing-tool/index.js`).

JavaScript values appearing as props or attributes are modelled by `JSVal`:
primitives structurally, and objects / arrays / functions by a reference tag
(strict equality `===` on them is reference identity, which the tag models as
long as distinct allocations get distinct tags).  A props object is an
association list from key to value; a key that is absent reads as `undefined`,
exactly as JavaScript property access does.
-/

set_option maxRecDepth 4000

inductive JSVal where
  | vundef
  | vnull
  | vbool (b : Bool)
  | vnum (n : Int)
  | vstr (s : String)
  | vobj (tag : Nat)
  deriving DecidableEq, Repr

/-- Props objects and settings objects: association lists key to value. -/
abbrev PropsObj := List (String × JSVal)

/-- JavaScript property access `p[key]`: the stored value, or `undefined` when
the key is absent. -/
def lookupJS (p : PropsObj) (key : String) : JSVal :=
  (p.lookup key).getD JSVal.vundef

/-- Keys of the object, as `Object.keys` enumerates them (insertion order). -/
def keysOf (p : PropsObj) : List String := p.map Prod.fst

/-- Order of keys of `layerSettingsProps` in `src/scene/layer/index.jsx`; this
is the recognized-key allow-list that `getLayerSettings` iterates over. -/
def layerSettingsKeys : List String :=
  ["id", "url", "portalItem", "layerType", "visible", "definitionExpression",
   "renderer", "rendererJson", "labelingInfo", "labelsVisible", "outFields",
   "elevationInfo", "geometryType", "hasZ", "fields", "objectIdField",
   "objectIdFilter", "selectable", "relatedLayer", "spatialReference",
   "opacity", "minScale", "maxScale", "featureReduction", "source",
   "legendEnabled", "title", "maskingGeometry", "popupEnabled",
   "popupTemplate", "onLoad"]

/-- Embedding of `getLayerSettings` (src/scene/layer/index.jsx, lines 68-77):
iterate the recognized keys, drop `opacity` when `props.layerType` is
`point-cloud`, drop keys whose value is `null` or `undefined`, and copy the
survivors into a fresh settings object in key-list order. -/
def getLayerSettings (props : PropsObj) : PropsObj :=
  ((layerSettingsKeys.filter
      (fun key => !(lookupJS props "layerType" = JSVal.vstr "point-cloud") || !(key = "opacity"))).filter
      (fun key => !(lookupJS props key = JSVal.vnull) && !(lookupJS props key = JSVal.vundef))).map
    (fun key => (key, lookupJS props key))

/-! UUID shape test: the regex
`^[0-9a-f]{8}-[0-9a-f]{4}-[1-5][0-9a-f]{3}-[89ab][0-9a-f]{3}-[0-9a-f]{12}$/i`
of `getHighlightOIDs`, executed on the char list of the string the tested
value coerces to. -/

def isHexChar (c : Char) : Bool :=
  (('0' ≤ c && c ≤ '9') || ('a' ≤ c && c ≤ 'f') || ('A' ≤ c && c ≤ 'F'))

def isVersionChar (c : Char) : Bool := ('1' ≤ c && c ≤ '5')

def isVariantChar (c : Char) : Bool :=
  (c = '8' || c = '9' || c = 'a' || c = 'b' || c = 'A' || c = 'B')

/-- Splitting a char list at every dash, keeping empty groups, mirroring
`String.splitOn "-"` and hence the dash structure the regex demands. -/
def splitOnDash : List Char → List (List Char)
  | [] => [[]]
  | c :: rest =>
    if c = '-' then [] :: splitOnDash rest
    else
      match splitOnDash rest with
      | [] => [[c]]
      | g :: gs => (c :: g) :: gs

/-- Group of hex chars of an exact length. -/
def hexGroup (len : Nat) (cs : List Char) : Bool :=
  cs.length = len && cs.all isHexChar

/-- Group whose first char satisfies `first` followed by three hex chars. -/
def markedGroup (first : Char → Bool) (cs : List Char) : Bool :=
  match cs with
  | c :: rest => first c && hexGroup 3 rest
  | [] => false

/-- Test of the canonical UUID textual shape, 8-4-4-4-12 hex groups with
version nibble 1-5 and variant nibble 8/9/a/b, case-insensitive. -/
def isUuidShape (s : String) : Bool :=
  match splitOnDash s.toList with
  | [a, b, c, d, e] =>
    hexGroup 8 a && hexGroup 4 b && markedGroup isVersionChar c &&
      markedGroup isVariantChar d && hexGroup 12 e
  | _ => false

/-- String a value coerces to when handed to `RegExp.test` (only strings can
ever match the UUID shape: a number's decimal string has no dash groups). -/
def jsToString : JSVal → String
  | .vundef => "undefined"
  | .vnull => "null"
  | .vbool b => if b then "true" else "false"
  | .vnum n => toString n
  | .vstr s => s
  | .vobj _ => "[object Object]"

/-- Test applied by `getHighlightOIDs` to each mystery id. -/
def uuidTest (v : JSVal) : Bool := isUuidShape (jsToString v)

/-- Loaded feature graphic: its attributes object. -/
structure Graphic where
  attributes : PropsObj
  deriving DecidableEq, Repr

/-- Attribute access `g.attributes[key]`. -/
def attrJS (g : Graphic) (key : String) : JSVal := lookupJS g.attributes key

/-- View-scoped layer view object, with the pieces the component reads:
`layerView.controller.graphics`, `layerView.layer.objectIdField`, and the
presence of the `highlight` method (tested for truthiness in
`getDerivedStateFromProps`). -/
structure LayerViewObj where
  graphics : List Graphic
  objectIdField : String
  hasHighlight : Bool
  deriving DecidableEq, Repr

/-- Embedding of `getOIDfromGlobalId` (src/scene/layer/index.jsx, lines
80-85): linear `find` over the loaded graphics for one whose `GlobalID`
attribute strictly equals the given id; `null` when none matches, else that
graphic's value at the layer's `objectIdField` attribute. -/
def getOIDfromGlobalId (layerView : LayerViewObj) (globalId : JSVal) : JSVal :=
  match layerView.graphics.find? (fun e => attrJS e "GlobalID" = globalId) with
  | none => JSVal.vnull
  | some graphic => attrJS graphic layerView.objectIdField

/-- Embedding of `getHighlightOIDs` (src/scene/layer/index.jsx, lines 88-91):
map over the mystery ids, resolving UUID-shaped ones through
`getOIDfromGlobalId` and passing every other id through unchanged. -/
def getHighlightOIDs (layerView : LayerViewObj) (mysteryIds : List JSVal) : List JSVal :=
  mysteryIds.map (fun mysteryId =>
    if uuidTest mysteryId then getOIDfromGlobalId layerView mysteryId else mysteryId)

/-! Highlight replacement in `Layer.getDerivedStateFromProps` (lines 95-105).
The hook runs on every render.  It first evaluates the truthy chain
`props.highlight && props.highlight.length && state.layerView &&
state.layerView.highlight && state.layerView.highlight(getHighlightOIDs(...))`
— which, when all guards pass, CALLS `layerView.highlight` and so installs the
newly computed set — and only afterwards executes
`if (state.highlights) state.highlights.remove()`, releasing the previous set.
The emitted engine calls are recorded as a trace, in program order. -/

inductive HEvent where
  | installHighlight (oids : List JSVal)
  | releaseOld
  deriving DecidableEq, Repr

structure LayerState where
  layerView : Option LayerViewObj
  highlights : Option (List JSVal)
  deriving DecidableEq, Repr

structure DerivedResult where
  trace : List HEvent
  newHighlights : Option (List JSVal)
  deriving DecidableEq, Repr

/-- Embedding of `Layer.getDerivedStateFromProps`.  `highlight` is
`props.highlight` (`none` models an absent prop); the stored `highlights`
state key is represented by the oid list the live highlight set was created
from (`none` for any falsy stored value). -/
def getDerivedStateFromProps (highlight : Option (List JSVal)) (state : LayerState) :
    DerivedResult :=
  let installed : Option (List JSVal) :=
    match highlight, state.layerView with
    | some hs, some lv =>
      if hs.length ≠ 0 ∧ lv.hasHighlight then some (getHighlightOIDs lv hs) else none
    | _, _ => none
  let trace :=
    (match installed with
     | some oids => [HEvent.installHighlight oids]
     | none => []) ++
    (if state.highlights.isSome then [HEvent.releaseOld] else [])
  { trace := trace, newHighlights := installed }

/-! Mount sequence `Layer.load` (lines 150-183) together with the liveness
flag of `componentDidMount` / `componentWillUnmount`.

Unmount is modelled by `clearedDuring`: `some c` means `componentWillUnmount`
ran (clearing `componentIsMounted`) while the `c`-th await actually executed
by `load` was still pending, so the flag reads `true` after `k` completed
awaits iff `k < c`; `none` means no unmount happened during the sequence.
The awaits executed by `load`, in order, are: `loadLayer` (skipped when an
existing layer with the given id is found), `view.whenLayerView`,
`layer.when`, and `applyUpdates`.

During `load` the instance state fields `this.state.layer` and
`this.state.layerView` still hold whatever they held when the sequence
started; they are passed in as `stateLayer0` / `stateLayerView0` (both `null`
on a real mount, since only the final `setState` of `load` assigns them).
When `props.selection` is non-empty the code evaluates
`this.state.layerView.highlight(...)`: on `null` that is a thrown TypeError,
recorded as `crashed := true`, aborting the rest of the sequence. -/

structure Handle where
  id : String
  deriving DecidableEq, Repr

inductive LEvent where
  | callLoadLayer
  | mapAdd (h : Handle)
  | mapRemove (h : Handle)
  | callApplyUpdates (prev next : PropsObj) (layerArg : Option Handle)
      (layerViewArg : Option LayerViewObj)
  | callHighlight (selection : List JSVal)
  | callOnLoad (h : Handle)
  deriving DecidableEq, Repr

/-- Value of the `componentIsMounted` flag observed after `k` completed
awaits, under the unmount timing `clearedDuring`. -/
def aliveAfter (clearedDuring : Option Nat) (k : Nat) : Bool :=
  match clearedDuring with
  | none => true
  | some c => k < c

/-- Outcome of one run of `load`: the engine/collaborator calls in program
order, the final content of `view.map.layers`, the state assignments and the
`onLoad` call the run performed, and whether it ended in a thrown TypeError. -/
structure LoadOutcome where
  trace : List LEvent
  layers : List Handle
  setLayer : Option (Handle × LayerViewObj)
  setHighlights : Option (List JSVal)
  onLoadCalled : Option Handle
  crashed : Bool
  deriving DecidableEq, Repr

/-- Embedding of `Layer.load`.  `initialLayers` is `view.map.layers.items`
when the sequence starts; `loaderResult` is what the external
`loadLayer(settings)` promise resolves to (`none` for JS `null`);
`layerViewResult` is what `view.whenLayerView(layer)` resolves to;
`selection` is `props.selection` and `props` the full current props object
(handed to `applyUpdates`). -/
def load (viewPresent : Bool) (initialLayers : List Handle) (layerSettings : PropsObj)
    (props : PropsObj) (selection : Option (List JSVal))
    (stateLayer0 : Option Handle) (stateLayerView0 : Option LayerViewObj)
    (loaderResult : Option Handle) (layerViewResult : LayerViewObj)
    (clearedDuring : Option Nat) : LoadOutcome :=
  if !viewPresent then
    { trace := [], layers := initialLayers, setLayer := none, setHighlights := none,
      onLoadCalled := none, crashed := false }
  else
    let existingLayer := initialLayers.find? (fun l => JSVal.vstr l.id = lookupJS layerSettings "id")
    let layer := match existingLayer with
      | some l => some l
      | none => loaderResult
    let awaits1 := match existingLayer with
      | some _ => 0
      | none => 1
    let trace1 := match existingLayer with
      | some _ => ([] : List LEvent)
      | none => [LEvent.callLoadLayer]
    match layer, aliveAfter clearedDuring awaits1 with
    | none, _ =>
      { trace := trace1, layers := initialLayers, setLayer := none, setHighlights := none,
        onLoadCalled := none, crashed := false }
    | some _, false =>
      { trace := trace1, layers := initialLayers, setLayer := none, setHighlights := none,
        onLoadCalled := none, crashed := false }
    | some lyr, true =>
      let trace2 := trace1 ++ [LEvent.mapAdd lyr]
      let layers2 := initialLayers ++ [lyr]
      if !(aliveAfter clearedDuring (awaits1 + 1)) then
        { trace := trace2 ++ [LEvent.mapRemove lyr], layers := layers2.erase lyr,
          setLayer := none, setHighlights := none, onLoadCalled := none, crashed := false }
      else
        let trace3 := trace2 ++
          [LEvent.callApplyUpdates layerSettings props stateLayer0 stateLayerView0]
        match selection with
        | some sel =>
          if sel.length ≠ 0 then
            match stateLayerView0 with
            | none =>
              { trace := trace3, layers := layers2, setLayer := none,
                setHighlights := none, onLoadCalled := none, crashed := true }
            | some _ =>
              { trace := trace3 ++ [LEvent.callHighlight sel, LEvent.callOnLoad lyr],
                layers := layers2, setLayer := some (lyr, layerViewResult),
                setHighlights := some sel, onLoadCalled := some lyr, crashed := false }
          else
            { trace := trace3 ++ [LEvent.callOnLoad lyr], layers := layers2,
              setLayer := some (lyr, layerViewResult), setHighlights := none,
              onLoadCalled := some lyr, crashed := false }
        | none =>
          { trace := trace3 ++ [LEvent.callOnLoad lyr], layers := layers2,
            setLayer := some (lyr, layerViewResult), setHighlights := none,
            onLoadCalled := some lyr, crashed := false }

/-! Update path `Layer.componentDidUpdate` (lines 124-134). -/

inductive UEvent where
  | refreshCall
  | dispatchUpdates (prev next : PropsObj) (layerArg : Option Handle)
      (layerViewArg : Option LayerViewObj)
  deriving DecidableEq, Repr

/-- Embedding of `Layer.componentDidUpdate`.  Guards in source order: return
when `this.state.layer` is falsy; return when
`Object.keys(prevProps).find(key => prevProps[key] !== this.props[key])`
is falsy — note the iteration runs over ALL keys of the previous props
object, not over the recognized-key list, and that a found key that is the
empty string is itself falsy.  Then `layerView.refresh()` fires iff the
`refresh` prop changed, and `applyUpdates(prevProps, this.props,
this.state.layer, this.state.layerView)` is always dispatched. -/
def componentDidUpdate (prevProps props : PropsObj) (stateLayer : Option Handle)
    (stateLayerView : Option LayerViewObj) : List UEvent :=
  match stateLayer with
  | none => []
  | some lyr =>
    match (keysOf prevProps).find? (fun key => !(lookupJS prevProps key = lookupJS props key)) with
    | none => []
    | some foundKey =>
      if foundKey = "" then []
      else
        (if !(lookupJS props "refresh" = lookupJS prevProps "refresh")
         then [UEvent.refreshCall] else []) ++
        [UEvent.dispatchUpdates prevProps props (some lyr) stateLayerView]

/-! DrawingTool teardown (`componentWillUnmount` of
`src/tools/drawing-tool/index.js`, lines 83-94). -/

/-- Operational state of the sketch/edit engine (idle, drawing, or reshaping);
the teardown code never consults it. -/
inductive SketchState where
  | idle
  | drawing
  | editing
  deriving DecidableEq, Repr

/-- Instance fields of a DrawingTool that teardown reads: whether each
subscription handle, the edit-engine instance, and the scratch layer exist
(all four are assigned unconditionally by `componentDidMount` once its module
load resolves), plus the engine's operational state. -/
structure ToolInst where
  onCreate : Bool
  onUpdate : Bool
  model : Bool
  layer : Bool
  sketchState : SketchState
  deriving DecidableEq, Repr

inductive TEvent where
  | unsubCreate
  | unsubUpdate
  | modelComplete
  | modelCancel
  | modelReset
  | modelDestroy
  | detachLayer
  deriving DecidableEq, Repr

/-- Embedding of `DrawingTool.componentWillUnmount`: remove the `create`
subscription if present, then the `update` subscription if present; if the
edit engine exists issue `complete()`, `cancel()`, `reset()`, `destroy()` in
that order, unconditionally on each other; finally detach the scratch layer
from the view if it exists. -/
def toolUnmount (t : ToolInst) : List TEvent :=
  (if t.onCreate then [TEvent.unsubCreate] else []) ++
  (if t.onUpdate then [TEvent.unsubUpdate] else []) ++
  (if t.model then [TEvent.modelComplete, TEvent.modelCancel,
                    TEvent.modelReset, TEvent.modelDestroy] else []) ++
  (if t.layer then [TEvent.detachLayer] else [])

/-! Helper lemmas. -/

/-- Lookup in an object built by copying `f k` under each key `k` surviving a
filter over a duplicate-free key list. -/
theorem lookup_keyed_filter (f : String → JSVal) (p : String → Bool) (key : String) :
    ∀ (l : List String), l.Nodup →
      ((l.filter p).map (fun k => (k, f k))).lookup key =
        if key ∈ l ∧ p key = true then some (f key) else none := by
  intro l
  induction l with
  | nil => simp
  | cons a t ih =>
    intro hnd
    obtain ⟨hat, hndt⟩ := List.nodup_cons.mp hnd
    rw [List.filter_cons]
    by_cases hpa : p a = true
    · rw [if_pos hpa, List.map_cons, List.lookup_cons]
      by_cases hka : key = a
      · subst hka
        simp [hpa]
      · have : (key == a) = false := by simp [hka]
        rw [this, ih hndt]
        simp [hka]
    · rw [if_neg hpa, ih hndt]
      by_cases hka : key = a
      · subst hka
        simp [hpa, fun h => hat h]
      · simp [hka]

/-- First hit of a linear search is the head of the filtered list. -/
theorem find_eq_head_of_filter {α : Type} (p : α → Bool) (l : List α) :
    l.find? p = (l.filter p).head? := by
  induction l with
  | nil => rfl
  | cons a t ih =>
    rw [List.find?_cons, List.filter_cons]
    cases h : p a with
    | true => rfl
    | false =>
      show t.find? p = (t.filter p).head?
      exact ih

/-- C7.  For every props object, the Settings Extractor output holds exactly
the recognized keys whose values are neither null nor undefined, except that
`opacity` is always absent when `layerType` is `point-cloud` even if supplied;
each surviving key maps to the prop value.  Purity and determinism hold by
construction (`getLayerSettings` is a function of its argument alone, with no
failure case). -/
theorem settings_extractor_exact (props : PropsObj) (key : String) :
    (getLayerSettings props).lookup key =
      if key ∈ layerSettingsKeys ∧ lookupJS props key ≠ JSVal.vnull ∧
          lookupJS props key ≠ JSVal.vundef ∧
          ¬(key = "opacity" ∧ lookupJS props "layerType" = JSVal.vstr "point-cloud")
      then some (lookupJS props key) else none := by
  have hnd : layerSettingsKeys.Nodup := by decide
  unfold getLayerSettings
  rw [List.filter_filter, lookup_keyed_filter _ _ _ _ hnd]
  congr 1
  simp only [eq_iff_iff, Bool.and_eq_true, Bool.not_eq_true', Bool.or_eq_true,
    decide_eq_true_eq, decide_eq_false_iff_not, and_congr_right_iff]
  intro _
  constructor
  · rintro ⟨⟨h1, h2⟩, h3⟩
    refine ⟨h1, h2, ?_⟩
    rintro ⟨hk, hpc⟩
    rcases h3 with h3 | h3
    · exact h3 hpc
    · exact h3 hk
  · rintro ⟨h1, h2, h3⟩
    refine ⟨⟨h1, h2⟩, ?_⟩
    by_cases hk : key = "opacity"
    · exact Or.inl (fun hpc => h3 ⟨hk, hpc⟩)
    · exact Or.inr hk

/-- Resolution of one UUID-shaped id, phrased as the specification words it:
the native row identifier of the FIRST loaded feature graphic whose
global-identifier attribute equals the id, or null when no such graphic
exists. -/
def resolveIdSpec (layerView : LayerViewObj) (globalId : JSVal) : JSVal :=
  match layerView.graphics.filter (fun g => attrJS g "GlobalID" = globalId) with
  | [] => JSVal.vnull
  | g :: _ => attrJS g layerView.objectIdField

theorem getOID_eq_resolveIdSpec (layerView : LayerViewObj) (globalId : JSVal) :
    getOIDfromGlobalId layerView globalId = resolveIdSpec layerView globalId := by
  unfold getOIDfromGlobalId resolveIdSpec
  rw [find_eq_head_of_filter]
  cases layerView.graphics.filter (fun g => attrJS g "GlobalID" = globalId) <;> simp

/-- Feature set of the worked example of the specification: one loaded
graphic with global identifier `3fa85f64-5717-4562-b3fc-2c963f66afa6` and
native id 7 under the object-id field. -/
def exampleLayerView : LayerViewObj :=
  { graphics := [{ attributes :=
      [("GlobalID", JSVal.vstr "3fa85f64-5717-4562-b3fc-2c963f66afa6"),
       ("OBJECTID", JSVal.vnum 7)] }],
    objectIdField := "OBJECTID",
    hasHighlight := true }

def exampleMysteryIds : List JSVal :=
  [JSVal.vstr "3fa85f64-5717-4562-b3fc-2c963f66afa6", JSVal.vnum 42]

/-- C8.  The Highlight Resolver maps, position by position (hence preserving
input order and length), each UUID-shaped id to the native row identifier of
the first loaded graphic whose global-identifier attribute equals it (null
when none does), and passes every other id through unchanged; and on the
specification's worked example it returns `[7, 42]`. -/
theorem highlight_resolver_shape :
    (∀ (layerView : LayerViewObj) (ids : List JSVal) (i : Nat),
        (getHighlightOIDs layerView ids)[i]? =
          (ids[i]?).map
            (fun m => if uuidTest m then resolveIdSpec layerView m else m)) ∧
      getHighlightOIDs exampleLayerView exampleMysteryIds =
        [JSVal.vnum 7, JSVal.vnum 42] := by
  constructor
  · intro layerView ids i
    unfold getHighlightOIDs
    rw [List.getElem?_map]
    cases ids[i]? with
    | none => rfl
    | some m => simp [getOID_eq_resolveIdSpec]
  · decide

/-- Trace of one `getDerivedStateFromProps` run, read off its stored result:
an install of the newly computed set when one was computed, then a release
of the previously stored set when one was live. -/
theorem gdsfp_trace_eq (highlight : Option (List JSVal)) (state : LayerState) :
    (getDerivedStateFromProps highlight state).trace =
      (match (getDerivedStateFromProps highlight state).newHighlights with
       | some oids => [HEvent.installHighlight oids]
       | none => []) ++
      (if state.highlights.isSome then [HEvent.releaseOld] else []) := rfl

/-- C10.  On every render in which the highlight prop is absent or empty, or
the view object is not yet available, no new highlight set is installed and
any previously live one is released (the run's only engine call is the
release, and none when nothing was live). -/
theorem highlight_clear_on_empty_input (highlight : Option (List JSVal)) (state : LayerState)
    (h : highlight = none ∨ highlight = some [] ∨ state.layerView = none) :
    (getDerivedStateFromProps highlight state).newHighlights = none ∧
    (∀ oids, HEvent.installHighlight oids ∉ (getDerivedStateFromProps highlight state).trace) ∧
    (state.highlights.isSome = true →
      (getDerivedStateFromProps highlight state).trace = [HEvent.releaseOld]) := by
  have hinst : (getDerivedStateFromProps highlight state).newHighlights = none := by
    rcases h with h | h | h
    · subst h
      rfl
    · subst h
      rcases hlv : state.layerView with _ | lv <;> simp [getDerivedStateFromProps, hlv]
    · rcases hhl : highlight with _ | hs
      · rfl
      · simp [getDerivedStateFromProps, h]
  have htr : (getDerivedStateFromProps highlight state).trace =
      if state.highlights.isSome then [HEvent.releaseOld] else [] := by
    rw [gdsfp_trace_eq, hinst]
    rfl
  refine ⟨hinst, ?_, ?_⟩
  · intro oids hmem
    rw [htr] at hmem
    by_cases hs : state.highlights.isSome <;> simp [hs] at hmem
  · intro hs
    rw [htr, if_pos hs]

theorem highlight_clear_on_empty_input_witness :
    (getDerivedStateFromProps none
        ⟨some exampleLayerView, some [JSVal.vnum 1]⟩).newHighlights = none ∧
    (∀ oids, HEvent.installHighlight oids ∉
      (getDerivedStateFromProps none ⟨some exampleLayerView, some [JSVal.vnum 1]⟩).trace) ∧
    ((some [JSVal.vnum 1] : Option (List JSVal)).isSome = true →
      (getDerivedStateFromProps none ⟨some exampleLayerView, some [JSVal.vnum 1]⟩).trace =
        [HEvent.releaseOld]) :=
  highlight_clear_on_empty_input none ⟨some exampleLayerView, some [JSVal.vnum 1]⟩ (Or.inl rfl)

/-! Claim C3 concerns the order of release and install during a highlight
replacement. -/

/-- Replacement scenario: a live highlight set built from `[1]`, the view
object available, and a fresh non-empty highlight input `[2]`. -/
def replacementState : LayerState :=
  { layerView := some exampleLayerView, highlights := some [JSVal.vnum 1] }

def replacementHighlight : Option (List JSVal) := some [JSVal.vnum 2]

def isInstallEvent : HEvent → Bool
  | HEvent.installHighlight _ => true
  | HEvent.releaseOld => false

def isReleaseEvent : HEvent → Bool
  | HEvent.installHighlight _ => false
  | HEvent.releaseOld => true

/-- Test that the release of the previous set strictly precedes the install
of the new one (`List.findIdx` gives the position of the first hit, or the
trace length when there is none). -/
def releaseStrictlyBeforeInstall (trace : List HEvent) : Bool :=
  trace.findIdx isReleaseEvent < trace.findIdx isInstallEvent

/-- C3 falsified.  In the replacement scenario the run calls
`layerView.highlight` (installing the new set) FIRST and only then calls
`remove()` on the previous set: release does not strictly precede install,
and both sets are momentarily live. -/
theorem highlight_replacement_order_counterexample :
    (getDerivedStateFromProps replacementHighlight replacementState).trace =
      [HEvent.installHighlight [JSVal.vnum 2], HEvent.releaseOld] ∧
    releaseStrictlyBeforeInstall
      (getDerivedStateFromProps replacementHighlight replacementState).trace = false := by
  decide

/-- C3 amended.  Each replacement installs the newly computed highlight set
first and only then releases the previously installed one — the two calls
always happen, in that order, within one synchronous run, so at most one set
survives the run (the new one), but the old set is released strictly AFTER
the new one is installed, not before. -/
theorem highlight_replacement_installs_then_releases
    (highlight : Option (List JSVal)) (state : LayerState)
    (prev : List JSVal) (lv : LayerViewObj) (newIds : List JSVal)
    (hprev : state.highlights = some prev) (hlv : state.layerView = some lv)
    (hh : highlight = some newIds) (hne : newIds.length ≠ 0)
    (hcap : lv.hasHighlight = true) :
    (getDerivedStateFromProps highlight state).trace =
      [HEvent.installHighlight (getHighlightOIDs lv newIds), HEvent.releaseOld] ∧
    (getDerivedStateFromProps highlight state).newHighlights =
      some (getHighlightOIDs lv newIds) := by
  subst hh
  simp [getDerivedStateFromProps, hlv, hprev, hne, hcap]

theorem highlight_replacement_installs_then_releases_witness :
    (getDerivedStateFromProps replacementHighlight replacementState).trace =
      [HEvent.installHighlight (getHighlightOIDs exampleLayerView [JSVal.vnum 2]),
        HEvent.releaseOld] ∧
    (getDerivedStateFromProps replacementHighlight replacementState).newHighlights =
      some (getHighlightOIDs exampleLayerView [JSVal.vnum 2]) :=
  highlight_replacement_installs_then_releases replacementHighlight replacementState
    [JSVal.vnum 1] exampleLayerView [JSVal.vnum 2] rfl rfl rfl (by decide) rfl

/-- C9.  Every teardown of a fully mounted DrawingTool — whatever the edit
engine's operational state — first unsubscribes the create stream then the
update stream, then issues complete, cancel, reset, destroy on the edit
engine in that exact order, and finally detaches the scratch layer from the
view. -/
theorem tool_teardown_order (t : ToolInst) (hc : t.onCreate = true)
    (hu : t.onUpdate = true) (hm : t.model = true) (hl : t.layer = true) :
    toolUnmount t =
      [TEvent.unsubCreate, TEvent.unsubUpdate, TEvent.modelComplete, TEvent.modelCancel,
       TEvent.modelReset, TEvent.modelDestroy, TEvent.detachLayer] := by
  simp [toolUnmount, hc, hu, hm, hl]

theorem tool_teardown_order_witness :
    toolUnmount ⟨true, true, true, true, SketchState.drawing⟩ =
      [TEvent.unsubCreate, TEvent.unsubUpdate, TEvent.modelComplete, TEvent.modelCancel,
       TEvent.modelReset, TEvent.modelDestroy, TEvent.detachLayer] :=
  tool_teardown_order ⟨true, true, true, true, SketchState.drawing⟩ rfl rfl rfl rfl

/-! Concrete inputs for the mount-sequence claims. -/

def handleA : Handle := { id := "a" }

def settingsA : PropsObj := [("id", JSVal.vstr "a")]

/-- Run of the mount sequence in which unmount clears the liveness flag while
the handle's load-complete signal (`layer.when()`, the third executed await)
is pending: the flag reads false after the third and fourth awaits. -/
def loadUnmountDuringWhen : LoadOutcome :=
  load true [] settingsA settingsA none none none (some handleA) exampleLayerView (some 3)

/-- Claim C1 at its failing input.  The source checks `componentIsMounted`
only after the loader await and after the view-object await; when the flag is
cleared while `layer.when()` is pending the sequence nevertheless dispatches
the diff, performs both setState assignments, and invokes the completion
callback — state changes well beyond the single cleanup removal the claim
(and the code's own comment, `After every await, need to check if component
is still mounted`) prescribes — and the handle is left in the collection with
no removal issued. -/
theorem load_missing_liveness_checks :
    aliveAfter (some 3) 3 = false ∧
    aliveAfter (some 3) 4 = false ∧
    loadUnmountDuringWhen.trace =
      [LEvent.callLoadLayer, LEvent.mapAdd handleA,
       LEvent.callApplyUpdates settingsA settingsA none none,
       LEvent.callOnLoad handleA] ∧
    loadUnmountDuringWhen.setLayer = some (handleA, exampleLayerView) ∧
    loadUnmountDuringWhen.onLoadCalled = some handleA ∧
    LEvent.mapRemove handleA ∉ loadUnmountDuringWhen.trace ∧
    loadUnmountDuringWhen.layers = [handleA] := by decide

/-- Claim C2.  When unmount clears the liveness flag before the external
loader's promise resolves (the flag already reads false after the first
executed await) and the loader path was actually taken (no handle with the
given id pre-existed), the mount sequence issues no add to the engine's layer
collection, leaves the collection exactly as it was, and the handle the
loader resolved — observed at the abort — does not end up in the collection. -/
theorem load_abort_before_loader_resolves
    (initialLayers : List Handle) (layerSettings props : PropsObj)
    (selection : Option (List JSVal)) (stateLayer0 : Option Handle)
    (stateLayerView0 : Option LayerViewObj) (resolved : Handle)
    (layerViewResult : LayerViewObj) (clearedDuring : Option Nat)
    (hflag : aliveAfter clearedDuring 1 = false)
    (hnew : initialLayers.find?
      (fun l => JSVal.vstr l.id = lookupJS layerSettings "id") = none)
    (hnotin : resolved ∉ initialLayers) :
    (∀ h, LEvent.mapAdd h ∉ (load true initialLayers layerSettings props selection
        stateLayer0 stateLayerView0 (some resolved) layerViewResult clearedDuring).trace) ∧
    (load true initialLayers layerSettings props selection stateLayer0 stateLayerView0
        (some resolved) layerViewResult clearedDuring).layers = initialLayers ∧
    resolved ∉ (load true initialLayers layerSettings props selection stateLayer0
        stateLayerView0 (some resolved) layerViewResult clearedDuring).layers := by
  refine ⟨?_, ?_, ?_⟩ <;> simp [load, hnew, hflag, hnotin]

theorem load_abort_before_loader_resolves_witness :
    (∀ h, LEvent.mapAdd h ∉ (load true [] settingsA settingsA none none none
        (some handleA) exampleLayerView (some 1)).trace) ∧
    (load true [] settingsA settingsA none none none (some handleA) exampleLayerView
        (some 1)).layers = [] ∧
    handleA ∉ (load true [] settingsA settingsA none none none (some handleA)
        exampleLayerView (some 1)).layers :=
  load_abort_before_loader_resolves [] settingsA settingsA none none none handleA
    exampleLayerView (some 1) (by decide) (by decide) (by decide)

/-- Props object carrying a non-empty `selection`, whose array contents are
`selectionVals` (the array itself is the reference `vobj 5`). -/
def propsWithSelection : PropsObj :=
  [("id", JSVal.vstr "a"), ("selection", JSVal.vobj 5)]

def selectionVals : List JSVal := [JSVal.vnum 1]

/-- Mount run with a non-empty initial selection and no unmount. -/
def loadWithSelection : LoadOutcome :=
  load true [] settingsA propsWithSelection (some selectionVals) none none
    (some handleA) exampleLayerView none

/-- Claim C4 at its failing input.  On the ready step the source passes
`this.state.layer` and `this.state.layerView` — both still null during a
mount — to `applyUpdates` instead of the just-obtained handle and view
object, and with a non-empty initial selection it then evaluates
`this.state.layerView.highlight(...)` on null, throwing before any highlight
set is installed and before the completion callback runs. -/
theorem load_ready_step_null_state_bug :
    loadWithSelection.crashed = true ∧
    loadWithSelection.onLoadCalled = none ∧
    loadWithSelection.setLayer = none ∧
    loadWithSelection.trace =
      [LEvent.callLoadLayer, LEvent.mapAdd handleA,
       LEvent.callApplyUpdates settingsA propsWithSelection none none] ∧
    LEvent.callApplyUpdates settingsA propsWithSelection (some handleA)
      (some exampleLayerView) ∉ loadWithSelection.trace ∧
    LEvent.callHighlight selectionVals ∉ loadWithSelection.trace := by decide

/-- Mount run against a collection that already holds a handle with the
requested id (remount), no selection, no unmount. -/
def loadReuse : LoadOutcome :=
  load true [handleA] settingsA settingsA none none none none exampleLayerView none

/-- Claim C5 falsified.  On remount the existing handle is reused (the
external loader is never called), yet `view.map.add` is still issued for a
handle that is already in the collection: the add call is unconditional, not
guarded by presence. -/
theorem load_reuse_duplicate_add_counterexample :
    handleA ∈ ([handleA] : List Handle) ∧
    LEvent.callLoadLayer ∉ loadReuse.trace ∧
    LEvent.mapAdd handleA ∈ loadReuse.trace := by decide

/-- Claim C5 amended.  When the mount sequence finds an existing handle with
a matching id it reuses it without invoking the external loader, issues the
(unconditional) add call to the collection for it, and — provided the
selection prop is empty or absent, the non-empty case throwing before
completion — still completes the ready sequence: the diff is dispatched and
the completion callback is invoked with the reused handle. -/
theorem load_reuse_completes_ready_sequence
    (initialLayers : List Handle) (layerSettings props : PropsObj)
    (selection : Option (List JSVal)) (found : Handle)
    (loaderResult : Option Handle) (layerViewResult : LayerViewObj)
    (hfound : initialLayers.find?
      (fun l => JSVal.vstr l.id = lookupJS layerSettings "id") = some found)
    (hsel : selection = none ∨ selection = some []) :
    LEvent.callLoadLayer ∉ (load true initialLayers layerSettings props selection
        none none loaderResult layerViewResult none).trace ∧
    LEvent.mapAdd found ∈ (load true initialLayers layerSettings props selection
        none none loaderResult layerViewResult none).trace ∧
    LEvent.callApplyUpdates layerSettings props none none ∈
      (load true initialLayers layerSettings props selection none none loaderResult
        layerViewResult none).trace ∧
    (load true initialLayers layerSettings props selection none none loaderResult
        layerViewResult none).onLoadCalled = some found ∧
    (load true initialLayers layerSettings props selection none none loaderResult
        layerViewResult none).crashed = false := by
  rcases hsel with hsel | hsel <;> subst hsel <;>
    refine ⟨?_, ?_, ?_, ?_, ?_⟩ <;> simp [load, hfound, aliveAfter]

theorem load_reuse_completes_ready_sequence_witness :
    LEvent.callLoadLayer ∉ (load true [handleA] settingsA settingsA none
        none none none exampleLayerView none).trace ∧
    LEvent.mapAdd handleA ∈ (load true [handleA] settingsA settingsA none
        none none none exampleLayerView none).trace ∧
    LEvent.callApplyUpdates settingsA settingsA none none ∈
      (load true [handleA] settingsA settingsA none none none none
        exampleLayerView none).trace ∧
    (load true [handleA] settingsA settingsA none none none none
        exampleLayerView none).onLoadCalled = some handleA ∧
    (load true [handleA] settingsA settingsA none none none none
        exampleLayerView none).crashed = false :=
  load_reuse_completes_ready_sequence [handleA] settingsA settingsA none handleA
    none exampleLayerView (by decide) (Or.inl rfl)

/-! Concrete inputs for the update-path claim. -/

def updateHandle : Handle := { id := "u" }

/-- Previous and next props that agree on every recognized key and on the
refresh counter, differing only in the (unrecognized) `highlight` prop — a
fresh array reference each render. -/
def prevPropsHighlightOnly : PropsObj :=
  [("id", JSVal.vstr "u"), ("highlight", JSVal.vobj 1)]

def nextPropsHighlightOnly : PropsObj :=
  [("id", JSVal.vstr "u"), ("highlight", JSVal.vobj 2)]

/-- Claim C6 falsified.  With no recognized key (nor the refresh counter)
differing between previous and next props, the Update Dispatcher is
nevertheless invoked, because the source diffs over ALL keys of the previous
props object and the `highlight` reference changed. -/
theorem update_dispatch_unrecognized_key_counterexample :
    (∀ key ∈ layerSettingsKeys,
        lookupJS prevPropsHighlightOnly key = lookupJS nextPropsHighlightOnly key) ∧
    lookupJS prevPropsHighlightOnly "refresh" = lookupJS nextPropsHighlightOnly "refresh" ∧
    componentDidUpdate prevPropsHighlightOnly nextPropsHighlightOnly
        (some updateHandle) none =
      [UEvent.dispatchUpdates prevPropsHighlightOnly nextPropsHighlightOnly
        (some updateHandle) none] := by decide

/-- Claim C6 amended.  While a layer handle is held, the Update Dispatcher is
not invoked when no key present on the previous props object differs (by
strict equality) from the next props; and it IS invoked — with (previous
props, next props, handle, view object) — whenever some key of the previous
props object differs, recognized or not, provided no empty-string key occurs
(a found empty-string key is itself falsy and would skip the dispatch). -/
theorem update_dispatch_iff_some_prev_key_differs
    (prevProps props : PropsObj) (lyr : Handle) (stateLayerView : Option LayerViewObj) :
    ((∀ key ∈ keysOf prevProps, lookupJS prevProps key = lookupJS props key) →
      componentDidUpdate prevProps props (some lyr) stateLayerView = []) ∧
    (∀ key, "" ∉ keysOf prevProps → key ∈ keysOf prevProps →
      lookupJS prevProps key ≠ lookupJS props key →
      UEvent.dispatchUpdates prevProps props (some lyr) stateLayerView ∈
        componentDidUpdate prevProps props (some lyr) stateLayerView) := by
  constructor
  · intro hall
    have hnone : (keysOf prevProps).find?
        (fun key => !(lookupJS prevProps key = lookupJS props key)) = none := by
      rw [List.find?_eq_none]
      intro x hx
      simp [hall x hx]
    simp [componentDidUpdate, hnone]
  · intro key hnoempty hmem hdiff
    have hsome : ((keysOf prevProps).find?
        (fun k => !(lookupJS prevProps k = lookupJS props k))).isSome = true :=
      List.find?_isSome.mpr ⟨key, hmem, by simp [hdiff]⟩
    obtain ⟨k0, hk0⟩ := Option.isSome_iff_exists.mp hsome
    have hk0mem : k0 ∈ keysOf prevProps := List.mem_of_find?_eq_some hk0
    have hk0ne : ¬(k0 = "") := fun h => hnoempty (h ▸ hk0mem)
    simp [componentDidUpdate, hk0, hk0ne]

theorem update_dispatch_iff_some_prev_key_differs_witness :
    componentDidUpdate prevPropsHighlightOnly prevPropsHighlightOnly
        (some updateHandle) none = [] ∧
    UEvent.dispatchUpdates prevPropsHighlightOnly nextPropsHighlightOnly
        (some updateHandle) none ∈
      componentDidUpdate prevPropsHighlightOnly nextPropsHighlightOnly
        (some updateHandle) none :=
  ⟨(update_dispatch_iff_some_prev_key_differs prevPropsHighlightOnly
      prevPropsHighlightOnly updateHandle none).1 (fun _ _ => rfl),
   (update_dispatch_iff_some_prev_key_differs prevPropsHighlightOnly
      nextPropsHighlightOnly updateHandle none).2 "highlight" (by decide) (by decide)
      (by decide)⟩
